import Mathlib

/-!
Shallow embedding of the `SurveyManager` durable object from
`src/index.ts` of the realtime voting app.  The repository carries two
implementations of the same survey object side by side:

* variant A ("recompute on read"): only the `votes` map is persisted and
  `getState` recomputes the tallies by folding over all stored votes;
* variant B ("incremental"): `tallies` and `totalVotes` are persisted as
  well and updated in place on every accepted vote.

JavaScript `Map`s are modelled as insertion-ordered association lists
(`mset` updates in place on an existing key and appends on a fresh key,
exactly like `Map.prototype.set`); absent durable-storage keys are
modelled with `Option`; `Date.now()` is passed in as an explicit `now`
argument; WebSocket subscribers are bare numeric ids together with a
send-failure predicate; `this.connections.size` is passed in as an
explicit `online` argument.
-/

/-- The fixed option catalog `AI_TOOLS` from the source. -/
def AI_TOOLS : List String :=
  ["Claude Code", "Replit", "Cursor", "Windsurf", "OpenAI Codex",
   "Roo Code", "Google Jules", "AWS Kiro", "Loveable", "Other", "None"]

/-- The `Vote` record from the source (`timestamp` is `Date.now()`). -/
structure Vote where
  sessionId : String
  selections : List String
  timestamp : Nat
  deriving DecidableEq

/-- JS `Map.prototype.get` on a map modelled as an association list. -/
def mget {α : Type} : List (String × α) → String → Option α
  | [], _ => none
  | p :: m, k => if p.1 = k then some p.2 else mget m k

/-- JS `Map.prototype.set`: updates the entry of the (unique) matching key
in place, keeping its insertion position, and appends a new entry at the
end when the key is absent. -/
def mset {α : Type} : List (String × α) → String → α → List (String × α)
  | [], k, v => [(k, v)]
  | p :: m, k, v => if p.1 = k then (k, v) :: m else p :: mset m k v

/-- JS `Map.prototype.has`. -/
def hasKey {α : Type} (m : List (String × α)) (k : String) : Bool :=
  (mget m k).isSome

/-- One iteration of the tally-counting loop appearing in both variants:
`tallies.set(sel, (tallies.get(sel) || 0) + 1)`. -/
def bumpOne (m : List (String × Nat)) (sel : String) : List (String × Nat) :=
  mset m sel ((mget m sel).getD 0 + 1)

/-- The tally-counting loop run over a whole selections list. -/
def bumpAll (m : List (String × Nat)) (sels : List String) :
    List (String × Nat) :=
  sels.foldl bumpOne m

/-- Variant A `getState` initialization:
`AI_TOOLS.forEach(tool => tallies.set(tool, 0))` starting from an empty map. -/
def initTallies : List (String × Nat) :=
  AI_TOOLS.foldl (fun m tool => mset m tool 0) []

/-- Variant B fresh tallies: `new Map(AI_TOOLS.map(tool => [tool, 0]))`. -/
def freshTallies : List (String × Nat) :=
  AI_TOOLS.map (fun tool => (tool, 0))

/-- Variant A `getState` tally recomputation: fold the counting loop over
every stored vote's selections. -/
def talliesOfVotes (votes : List (String × Vote)) : List (String × Nat) :=
  votes.foldl (fun m p => bumpAll m p.2.selections) initTallies

/-- Durable storage of variant A: only `votes` and `startTime` are put. -/
structure StoreA where
  votes : Option (List (String × Vote))
  startTime : Option Nat
  deriving DecidableEq

/-- Durable storage of variant B: `votes`, `tallies`, `totalVotes`,
`startTime`. -/
structure StoreB where
  votes : Option (List (String × Vote))
  tallies : Option (List (String × Nat))
  totalVotes : Option Nat
  startTime : Option Nat
  deriving DecidableEq

/-- Storage before anything was ever persisted. -/
def initStoreA : StoreA := ⟨none, none⟩

/-- Storage before anything was ever persisted. -/
def initStoreB : StoreB := ⟨none, none, none, none⟩

/-- Reading `votes` in variant A: `(await get("votes")) || new Map()`. -/
def loadVotesA (st : StoreA) : List (String × Vote) := st.votes.getD []

/-- Reading `votes` in variant B: `(await get("votes")) || new Map()`. -/
def loadVotes (st : StoreB) : List (String × Vote) := st.votes.getD []

/-- Reading `tallies` in variant B:
`(await get("tallies")) || new Map(AI_TOOLS.map(tool => [tool, 0]))`. -/
def loadTallies (st : StoreB) : List (String × Nat) :=
  st.tallies.getD freshTallies

/-- Reading `totalVotes` in variant B: `(await get("totalVotes")) || 0`. -/
def loadTotal (st : StoreB) : Nat := st.totalVotes.getD 0

/-- The in-memory `SurveyState` record both variants return from
`getState`. -/
structure SurveyState where
  votes : List (String × Vote)
  tallies : List (String × Nat)
  totalVotes : Nat
  startTime : Nat
  deriving DecidableEq

/-- Variant A `getState`: recompute `tallies`, `totalVotes = votes.size`. -/
def getStateA (now : Nat) (st : StoreA) : SurveyState :=
  { votes := loadVotesA st
    tallies := talliesOfVotes (loadVotesA st)
    totalVotes := (loadVotesA st).length
    startTime := st.startTime.getD now }

/-- Variant B `getState`: read every field back from storage. -/
def getStateB (now : Nat) (st : StoreB) : SurveyState :=
  { votes := loadVotes st
    tallies := loadTallies st
    totalVotes := loadTotal st
    startTime := st.startTime.getD now }

/-- A broadcast payload: the `type` tag plus the snapshot fields sent to
every subscriber. -/
structure Msg where
  type : String
  tallies : List (String × Nat)
  totalVotes : Nat
  onlineUsers : Nat
  deriving DecidableEq

/-- Variant A vote result: `{success, error?}`. -/
structure VoteResultA where
  success : Bool
  error : Option String
  deriving DecidableEq

/-- Variant B vote result: `{success, message}`. -/
structure VoteResultB where
  success : Bool
  message : String
  deriving DecidableEq

/-- Variant A `broadcastState`: re-read the state and send it with the
fixed tag `"state"` (the same tag for vote updates and for resets). -/
def broadcastMsgA (now online : Nat) (st : StoreA) : Msg :=
  let state := getStateA now st
  ⟨"state", state.tallies, state.totalVotes, online⟩

/-- Variant A `submitVote`.  The third component is the broadcast payload
produced on the success path (no broadcast on a rejection). -/
def submitVoteA (now online : Nat) (sessionId : String)
    (selections : List String) (st : StoreA) :
    VoteResultA × StoreA × Option Msg :=
  let votes := loadVotesA st
  if hasKey votes sessionId then
    (⟨false, some "Already voted"⟩, st, none)
  else
    let validSelections := selections.filter (fun s => AI_TOOLS.contains s)
    if validSelections.length = 0 then
      (⟨false, some "No valid selections"⟩, st, none)
    else
      let vote : Vote := ⟨sessionId, validSelections, now⟩
      let st' : StoreA :=
        ⟨some (mset votes sessionId vote), st.startTime⟩
      (⟨true, none⟩, st', some (broadcastMsgA now online st'))

/-- Variant A `resetSurvey`: delete `votes`, put a new `startTime`, then
broadcast (again with tag `"state"`). -/
def resetSurveyA (now online : Nat) (_st : StoreA) : StoreA × Msg :=
  let st' : StoreA := ⟨none, some now⟩
  (st', broadcastMsgA now online st')

/-- Variant B `submitVote`: duplicate-session check, catalog filter,
in-place tally increments, three puts, then an `"update"` broadcast. -/
def submitVoteB (now online : Nat) (sessionId : String)
    (selections : List String) (st : StoreB) :
    VoteResultB × StoreB × Option Msg :=
  let state := getStateB now st
  if hasKey state.votes sessionId then
    (⟨false, "You have already voted"⟩, st, none)
  else
    let validSelections := selections.filter (fun s => AI_TOOLS.contains s)
    if validSelections.length = 0 then
      (⟨false, "Please select at least one option"⟩, st, none)
    else
      let vote : Vote := ⟨sessionId, validSelections, now⟩
      let votes' := mset state.votes sessionId vote
      let tallies' := bumpAll state.tallies validSelections
      let totalVotes' := state.totalVotes + 1
      let st' : StoreB :=
        ⟨some votes', some tallies', some totalVotes', st.startTime⟩
      (⟨true, "Vote recorded successfully"⟩, st',
        some ⟨"update", tallies', totalVotes', online⟩)

/-- Variant B `resetSurvey`: `deleteAll`, put fresh zeroed tallies, empty
votes, zero total, new `startTime`, then a `"reset"` broadcast. -/
def resetSurveyB (now online : Nat) (_st : StoreB) : StoreB × Msg :=
  (⟨some [], some freshTallies, some 0, some now⟩,
    ⟨"reset", freshTallies, 0, online⟩)

/-- Variant A `submitVote` with the durable put's outcome made explicit:
`putOk = false` plays the role of `await ctx.storage.put("votes", votes)`
throwing, in which case the handler aborts before the broadcast and before
`{success: true}` is produced, and the durable store is unmodified. -/
def submitVoteAF (putOk : Bool) (now online : Nat) (sessionId : String)
    (selections : List String) (st : StoreA) :
    Except Unit VoteResultA × StoreA × Option Msg :=
  let votes := loadVotesA st
  if hasKey votes sessionId then
    (Except.ok ⟨false, some "Already voted"⟩, st, none)
  else
    let validSelections := selections.filter (fun s => AI_TOOLS.contains s)
    if validSelections.length = 0 then
      (Except.ok ⟨false, some "No valid selections"⟩, st, none)
    else
      let vote : Vote := ⟨sessionId, validSelections, now⟩
      if putOk then
        let st' : StoreA :=
          ⟨some (mset votes sessionId vote), st.startTime⟩
        (Except.ok ⟨true, none⟩, st', some (broadcastMsgA now online st'))
      else
        (Except.error (), st, none)

/-- Variant B `submitVote` with the outcomes of its three sequential
durable puts made explicit: the source awaits `put("votes", …)`, then
`put("tallies", …)`, then `put("totalVotes", …)` in that order.  A flag
set to `false` plays the role of that `await` throwing, which aborts the
handler: the later puts do not execute, no broadcast is produced, and the
error propagates instead of the success result — but the puts that had
already completed stay applied to the durable store. -/
def submitVoteBF (votesPutOk talliesPutOk totalPutOk : Bool)
    (now online : Nat) (sessionId : String) (selections : List String)
    (st : StoreB) : Except Unit VoteResultB × StoreB × Option Msg :=
  let state := getStateB now st
  if hasKey state.votes sessionId then
    (Except.ok ⟨false, "You have already voted"⟩, st, none)
  else
    let validSelections := selections.filter (fun s => AI_TOOLS.contains s)
    if validSelections.length = 0 then
      (Except.ok ⟨false, "Please select at least one option"⟩, st, none)
    else
      let vote : Vote := ⟨sessionId, validSelections, now⟩
      let votes' := mset state.votes sessionId vote
      let tallies' := bumpAll state.tallies validSelections
      let totalVotes' := state.totalVotes + 1
      if votesPutOk then
        if talliesPutOk then
          if totalPutOk then
            (Except.ok ⟨true, "Vote recorded successfully"⟩,
             ⟨some votes', some tallies', some totalVotes', st.startTime⟩,
             some ⟨"update", tallies', totalVotes', online⟩)
          else
            (Except.error (),
             ⟨some votes', some tallies', st.totalVotes, st.startTime⟩,
             none)
        else
          (Except.error (),
           ⟨some votes', st.tallies, st.totalVotes, st.startTime⟩, none)
      else
        (Except.error (), st, none)

/-- Whether a variant B result is the accepted `{success: true}`
response (as opposed to a rejection or a surfaced storage error). -/
def acceptedB : Except Unit VoteResultB → Bool
  | Except.ok r => r.success
  | Except.error _ => false

/-- An external mutation of the survey: a `POST /vote` or an authorized
`POST /reset`, with its `Date.now()` value. -/
inductive Op where
  | vote (now : Nat) (sessionId : String) (selections : List String)
  | reset (now : Nat)

/-- The durable-store transition of one operation, variant A. -/
def applyOpA (st : StoreA) : Op → StoreA
  | .vote now sid sels => (submitVoteA now 0 sid sels st).2.1
  | .reset now => (resetSurveyA now 0 st).1

/-- The durable-store transition of one operation, variant B. -/
def applyOpB (st : StoreB) : Op → StoreB
  | .vote now sid sels => (submitVoteB now 0 sid sels st).2.1
  | .reset now => (resetSurveyB now 0 st).1

/-- Every reachable variant A durable store: fold a sequence of external
operations over the initial (never-persisted) store. -/
def runA (ops : List Op) : StoreA := ops.foldl applyOpA initStoreA

/-- Every reachable variant B durable store. -/
def runB (ops : List Op) : StoreB := ops.foldl applyOpB initStoreB

/-- Variant A broadcast fan-out (`connections.forEach` with a per-socket
try/catch whose handler deletes the socket from the live set).  Returns
the sockets the send reached and the live set afterwards. -/
def deliverA (fails : Nat → Bool) (conns : List Nat) :
    List Nat × List Nat :=
  conns.foldl
    (fun acc ws =>
      if fails ws then (acc.1, acc.2.filter (fun w => w != ws))
      else (acc.1 ++ [ws], acc.2))
    ([], conns)

/-- Variant B broadcast fan-out (`for … of` with a per-socket try/catch
whose handler only logs).  The live set is returned unchanged because the
catch block never removes the socket. -/
def deliverB (fails : Nat → Bool) (conns : List Nat) :
    List Nat × List Nat :=
  (conns.foldl (fun acc ws => if fails ws then acc else acc ++ [ws]) [],
   conns)

/-- Number of stored votes whose selections contain `o` — the count the
specification's tally invariant refers to. -/
def votesContaining (votes : List (String × Vote)) (o : String) : Nat :=
  (votes.filter (fun p => p.2.selections.contains o)).length

/-- Number of occurrences of `o` in one selections list. -/
def countOcc (o : String) (l : List String) : Nat :=
  (l.filter (fun s => s == o)).length

/-- Total number of occurrences of `o` across the selections of all stored
votes. -/
def occurrencesOf (votes : List (String × Vote)) (o : String) : Nat :=
  (votes.map (fun p => countOcc o p.2.selections)).sum

/-! ### Basic association-list lemmas -/

theorem mget_nil {α : Type} (k : String) :
    mget ([] : List (String × α)) k = none := rfl

theorem mget_cons {α : Type} (p : String × α) (m : List (String × α))
    (k : String) :
    mget (p :: m) k = if p.1 = k then some p.2 else mget m k := rfl

theorem mget_mset_self {α : Type} (m : List (String × α)) (k : String)
    (v : α) : mget (mset m k v) k = some v := by
  induction m with
  | nil => simp [mset, mget]
  | cons p m ih =>
    by_cases h : p.1 = k
    · simp [mset, mget, h]
    · simp [mset, mget, h, ih]

theorem mget_mset_ne {α : Type} (m : List (String × α)) (k k' : String)
    (v : α) (hne : k' ≠ k) : mget (mset m k v) k' = mget m k' := by
  have hne' : k ≠ k' := fun h => hne h.symm
  induction m with
  | nil => simp [mset, mget, hne, hne']
  | cons p m ih =>
    by_cases h : p.1 = k
    · simp [mset, mget, h, hne, hne']
    · by_cases h' : p.1 = k'
      · simp [mset, mget, h, h', hne, hne']
      · simp [mset, mget, h, h', ih]

theorem mset_of_mget_none {α : Type} (m : List (String × α)) (k : String)
    (v : α) (h : mget m k = none) : mset m k v = m ++ [(k, v)] := by
  induction m with
  | nil => rfl
  | cons p m ih =>
    rw [mget_cons] at h
    by_cases hp : p.1 = k
    · simp [hp] at h
    · rw [if_neg hp] at h
      simp [mset, hp, ih h]

theorem mget_none_not_mem_keys {α : Type} (m : List (String × α))
    (k : String) (h : mget m k = none) : k ∉ m.map Prod.fst := by
  induction m with
  | nil => simp
  | cons p m ih =>
    rw [mget_cons] at h
    by_cases hp : p.1 = k
    · simp [hp] at h
    · rw [if_neg hp] at h
      simp only [List.map_cons, List.mem_cons]
      rintro (rfl | hk)
      · exact hp rfl
      · exact ih h hk

theorem hasKey_eq_false_iff {α : Type} (m : List (String × α)) (k : String) :
    hasKey m k = false ↔ mget m k = none := by
  unfold hasKey
  cases h : mget m k <;> simp [h]

/-! ### Tally-counting lemmas -/

theorem countOcc_nil (o : String) : countOcc o [] = 0 := rfl

theorem countOcc_cons (o s : String) (l : List String) :
    countOcc o (s :: l) = (if s = o then 1 else 0) + countOcc o l := by
  by_cases h : s = o <;> simp [countOcc, List.filter_cons, h, Nat.add_comm]

theorem mget_bumpAll (sels : List String) (m : List (String × Nat))
    (o : String) (n : Nat) (h : mget m o = some n) :
    mget (bumpAll m sels) o = some (n + countOcc o sels) := by
  induction sels generalizing m n with
  | nil => simpa [bumpAll, countOcc_nil] using h
  | cons s rest ih =>
    rw [bumpAll, List.foldl_cons]
    by_cases hso : s = o
    · subst hso
      have hb : mget (bumpOne m s) s = some (n + 1) := by
        rw [bumpOne, h]
        simpa using mget_mset_self m s (n + 1)
      have := ih (bumpOne m s) (n + 1) hb
      rw [bumpAll] at this
      rw [this, countOcc_cons]
      simp [Nat.add_comm, Nat.add_assoc, Nat.add_left_comm]
    · have hb : mget (bumpOne m s) o = some n := by
        rw [bumpOne]
        rw [mget_mset_ne m s o _ (fun e => hso e.symm)]
        exact h
      have := ih (bumpOne m s) n hb
      rw [bumpAll] at this
      rw [this, countOcc_cons]
      simp [hso]

theorem occurrencesOf_nil (o : String) : occurrencesOf [] o = 0 := rfl

theorem occurrencesOf_cons (p : String × Vote)
    (votes : List (String × Vote)) (o : String) :
    occurrencesOf (p :: votes) o =
      countOcc o p.2.selections + occurrencesOf votes o := by
  simp [occurrencesOf]

theorem mget_talliesFold (votes : List (String × Vote))
    (m : List (String × Nat)) (o : String) (n : Nat)
    (h : mget m o = some n) :
    mget (votes.foldl (fun m p => bumpAll m p.2.selections) m) o =
      some (n + occurrencesOf votes o) := by
  induction votes generalizing m n with
  | nil => simpa [occurrencesOf_nil] using h
  | cons p rest ih =>
    rw [List.foldl_cons]
    have hb := mget_bumpAll p.2.selections m o n h
    have := ih (bumpAll m p.2.selections) _ hb
    rw [this, occurrencesOf_cons]
    simp [Nat.add_assoc]

theorem mget_mapZero (l : List String) (o : String) :
    o ∈ l → mget (l.map (fun t => (t, (0 : Nat)))) o = some 0 := by
  induction l with
  | nil => intro ho; simp at ho
  | cons t rest ih =>
    intro ho
    rw [List.map_cons, mget_cons]
    by_cases h : t = o
    · simp [h]
    · simp only [h, if_false]
      cases ho with
      | head => exact absurd rfl h
      | tail _ ho => exact ih ho

theorem mget_freshTallies (o : String) (ho : o ∈ AI_TOOLS) :
    mget freshTallies o = some 0 :=
  mget_mapZero AI_TOOLS o ho

theorem initTallies_eq_freshTallies : initTallies = freshTallies := by
  decide

theorem talliesOfVotes_nil : talliesOfVotes [] = initTallies := rfl

theorem mget_talliesOfVotes (votes : List (String × Vote)) (o : String)
    (ho : o ∈ AI_TOOLS) :
    mget (talliesOfVotes votes) o = some (occurrencesOf votes o) := by
  have h0 : mget initTallies o = some 0 := by
    rw [initTallies_eq_freshTallies]
    exact mget_freshTallies o ho
  simpa using mget_talliesFold votes initTallies o 0 h0

theorem talliesOfVotes_append_one (votes : List (String × Vote))
    (p : String × Vote) :
    talliesOfVotes (votes ++ [p]) =
      bumpAll (talliesOfVotes votes) p.2.selections := by
  rw [talliesOfVotes, List.foldl_append]
  rfl

/-! ### Characterizations of the three `submitVote` outcomes -/

theorem submitVoteB_rejected_already (now online : Nat) (sid : String)
    (sels : List String) (st : StoreB)
    (h : hasKey (loadVotes st) sid = true) :
    submitVoteB now online sid sels st =
      (⟨false, "You have already voted"⟩, st, none) := by
  simp [submitVoteB, getStateB, h]

theorem submitVoteB_rejected_empty (now online : Nat) (sid : String)
    (sels : List String) (st : StoreB)
    (h : hasKey (loadVotes st) sid = false)
    (h2 : (sels.filter (fun s => AI_TOOLS.contains s)).length = 0) :
    submitVoteB now online sid sels st =
      (⟨false, "Please select at least one option"⟩, st, none) := by
  simp [submitVoteB, getStateB, h]
  simpa using h2

theorem submitVoteB_accepted (now online : Nat) (sid : String)
    (sels : List String) (st : StoreB)
    (h : hasKey (loadVotes st) sid = false)
    (h2 : (sels.filter (fun s => AI_TOOLS.contains s)).length ≠ 0) :
    submitVoteB now online sid sels st =
      (⟨true, "Vote recorded successfully"⟩,
       ⟨some (mset (loadVotes st) sid
          ⟨sid, sels.filter (fun s => AI_TOOLS.contains s), now⟩),
        some (bumpAll (loadTallies st)
          (sels.filter (fun s => AI_TOOLS.contains s))),
        some (loadTotal st + 1), st.startTime⟩,
       some ⟨"update",
         bumpAll (loadTallies st) (sels.filter (fun s => AI_TOOLS.contains s)),
         loadTotal st + 1, online⟩) := by
  simp [submitVoteB, getStateB, h]
  simpa using h2

theorem submitVoteA_rejected_already (now online : Nat) (sid : String)
    (sels : List String) (st : StoreA)
    (h : hasKey (loadVotesA st) sid = true) :
    submitVoteA now online sid sels st =
      (⟨false, some "Already voted"⟩, st, none) := by
  simp [submitVoteA, h]

theorem submitVoteA_rejected_empty (now online : Nat) (sid : String)
    (sels : List String) (st : StoreA)
    (h : hasKey (loadVotesA st) sid = false)
    (h2 : (sels.filter (fun s => AI_TOOLS.contains s)).length = 0) :
    submitVoteA now online sid sels st =
      (⟨false, some "No valid selections"⟩, st, none) := by
  simp [submitVoteA, h]
  simpa using h2

theorem submitVoteA_accepted (now online : Nat) (sid : String)
    (sels : List String) (st : StoreA)
    (h : hasKey (loadVotesA st) sid = false)
    (h2 : (sels.filter (fun s => AI_TOOLS.contains s)).length ≠ 0) :
    submitVoteA now online sid sels st =
      (⟨true, none⟩,
       ⟨some (mset (loadVotesA st) sid
          ⟨sid, sels.filter (fun s => AI_TOOLS.contains s), now⟩),
        st.startTime⟩,
       some (broadcastMsgA now online
        ⟨some (mset (loadVotesA st) sid
          ⟨sid, sels.filter (fun s => AI_TOOLS.contains s), now⟩),
         st.startTime⟩)) := by
  simp [submitVoteA, h]
  simpa using h2

/-! ### The reachable-store invariant of the incremental variant -/

/-- Invariant tying variant B's stored `tallies` and `totalVotes` to its
stored `votes`: the stored tallies are exactly the recomputation variant A
would produce from the same votes, the stored total is the number of
stored votes, and stored session ids are pairwise distinct. -/
def InvB (st : StoreB) : Prop :=
  loadTallies st = talliesOfVotes (loadVotes st) ∧
  loadTotal st = (loadVotes st).length ∧
  ((loadVotes st).map Prod.fst).Nodup

theorem invB_init : InvB initStoreB := by
  refine ⟨?_, rfl, by simp [initStoreB, loadVotes]⟩
  show freshTallies = talliesOfVotes []
  rw [talliesOfVotes_nil, initTallies_eq_freshTallies]

theorem invB_applyOp (st : StoreB) (op : Op) (h : InvB st) :
    InvB (applyOpB st op) := by
  obtain ⟨ht, htot, hnd⟩ := h
  cases op with
  | reset now =>
    refine ⟨?_, rfl, by simp [applyOpB, resetSurveyB, loadVotes]⟩
    show loadTallies _ = talliesOfVotes (loadVotes _)
    simp [applyOpB, resetSurveyB, loadTallies, loadVotes,
      talliesOfVotes_nil, initTallies_eq_freshTallies]
  | vote now sid sels =>
    cases hk : hasKey (loadVotes st) sid with
    | true =>
      simp only [applyOpB, submitVoteB_rejected_already now 0 sid sels st hk]
      exact ⟨ht, htot, hnd⟩
    | false =>
      by_cases h2 : (sels.filter (fun s => AI_TOOLS.contains s)).length = 0
      · simp only [applyOpB, submitVoteB_rejected_empty now 0 sid sels st hk h2]
        exact ⟨ht, htot, hnd⟩
      · simp only [applyOpB, submitVoteB_accepted now 0 sid sels st hk h2]
        have hnone : mget (loadVotes st) sid = none :=
          (hasKey_eq_false_iff _ _).mp hk
        have happ := mset_of_mget_none (loadVotes st) sid
          ⟨sid, sels.filter (fun s => AI_TOOLS.contains s), now⟩ hnone
        refine ⟨?_, ?_, ?_⟩
        · show bumpAll (loadTallies st) _ = talliesOfVotes (mset _ _ _)
          rw [happ, talliesOfVotes_append_one, ht]
        · show loadTotal st + 1 = (mset _ _ _).length
          rw [happ, htot]
          simp
        · show ((mset _ _ _).map Prod.fst).Nodup
          rw [happ, List.map_append]
          rw [List.nodup_append]
          refine ⟨hnd, by simp, ?_⟩
          intro a ha hb
          simp only [List.map_cons, List.map_nil, List.mem_singleton] at hb
          rw [hb] at ha
          exact mget_none_not_mem_keys (loadVotes st) sid hnone ha

theorem invB_fold (ops : List Op) :
    ∀ st, InvB st → InvB (ops.foldl applyOpB st) := by
  induction ops with
  | nil => intro st h; exact h
  | cons op rest ih => intro st h; exact ih _ (invB_applyOp st op h)

theorem invB_run (ops : List Op) : InvB (runB ops) :=
  invB_fold ops initStoreB invB_init

/-! ### The two variants keep identical vote ledgers -/

theorem loadVotes_applyOp_eq (op : Op) (stA : StoreA) (stB : StoreB)
    (h : loadVotesA stA = loadVotes stB) :
    loadVotesA (applyOpA stA op) = loadVotes (applyOpB stB op) := by
  cases op with
  | reset now =>
    simp [applyOpA, applyOpB, resetSurveyA, resetSurveyB, loadVotesA,
      loadVotes]
  | vote now sid sels =>
    cases hk : hasKey (loadVotes stB) sid with
    | true =>
      have hkA : hasKey (loadVotesA stA) sid = true := by rw [h]; exact hk
      simp only [applyOpA, applyOpB,
        submitVoteA_rejected_already now 0 sid sels stA hkA,
        submitVoteB_rejected_already now 0 sid sels stB hk]
      exact h
    | false =>
      have hkA : hasKey (loadVotesA stA) sid = false := by rw [h]; exact hk
      by_cases h2 : (sels.filter (fun s => AI_TOOLS.contains s)).length = 0
      · simp only [applyOpA, applyOpB,
          submitVoteA_rejected_empty now 0 sid sels stA hkA h2,
          submitVoteB_rejected_empty now 0 sid sels stB hk h2]
        exact h
      · simp only [applyOpA, applyOpB,
          submitVoteA_accepted now 0 sid sels stA hkA h2,
          submitVoteB_accepted now 0 sid sels stB hk h2]
        show mset (loadVotesA stA) sid _ = mset (loadVotes stB) sid _
        rw [h]

theorem votesAB_fold (ops : List Op) :
    ∀ (stA : StoreA) (stB : StoreB), loadVotesA stA = loadVotes stB →
      loadVotesA (ops.foldl applyOpA stA) = loadVotes (ops.foldl applyOpB stB) := by
  induction ops with
  | nil => intro stA stB h; exact h
  | cons op rest ih =>
    intro stA stB h
    exact ih _ _ (loadVotes_applyOp_eq op stA stB h)

theorem votesAB_run (ops : List Op) :
    loadVotesA (runA ops) = loadVotes (runB ops) :=
  votesAB_fold ops initStoreA initStoreB rfl

/-! ### Broadcast fan-out lemmas -/

theorem deliverA_fold_fst (fails : Nat → Bool) (conns : List Nat) :
    ∀ acc : List Nat × List Nat,
      (conns.foldl
        (fun acc ws =>
          if fails ws then (acc.1, acc.2.filter (fun w => w != ws))
          else (acc.1 ++ [ws], acc.2)) acc).1 =
      acc.1 ++ conns.filter (fun w => !fails w) := by
  induction conns with
  | nil => intro acc; simp
  | cons c rest ih =>
    intro acc
    rw [List.foldl_cons]
    cases hc : fails c
    · rw [if_neg (by simp [hc])]
      rw [ih]
      simp [List.filter_cons, hc]
    · rw [if_pos (by simp [hc])]
      rw [ih]
      simp [List.filter_cons, hc]

theorem deliverA_fold_snd_subset (fails : Nat → Bool) (conns : List Nat)
    (x : Nat) :
    ∀ acc : List Nat × List Nat,
      x ∈ (conns.foldl
        (fun acc ws =>
          if fails ws then (acc.1, acc.2.filter (fun w => w != ws))
          else (acc.1 ++ [ws], acc.2)) acc).2 → x ∈ acc.2 := by
  induction conns with
  | nil => intro acc hx; exact hx
  | cons c rest ih =>
    intro acc hx
    rw [List.foldl_cons] at hx
    cases hc : fails c
    · rw [if_neg (by simp [hc])] at hx
      exact ih (acc.1 ++ [c], acc.2) hx
    · rw [if_pos (by simp [hc])] at hx
      exact List.mem_of_mem_filter (ih (acc.1, acc.2.filter (fun w => w != c)) hx)

theorem mem_deliverA_delivered (fails : Nat → Bool) (conns : List Nat)
    (w : Nat) (hw : w ∈ conns) (hf : fails w = false) :
    w ∈ (deliverA fails conns).1 := by
  rw [deliverA, deliverA_fold_fst]
  simp only [List.nil_append]
  exact List.mem_filter.mpr ⟨hw, by simp [hf]⟩

theorem not_mem_deliverA_live (fails : Nat → Bool) (conns : List Nat)
    (w : Nat) (hw : w ∈ conns) (hf : fails w = true) :
    w ∉ (deliverA fails conns).2 := by
  rw [deliverA]
  have main : ∀ (l : List Nat) (acc : List Nat × List Nat), w ∈ l →
      w ∉ (l.foldl
        (fun acc ws =>
          if fails ws then (acc.1, acc.2.filter (fun x => x != ws))
          else (acc.1 ++ [ws], acc.2)) acc).2 := by
    intro l
    induction l with
    | nil => intro acc hmem; simp at hmem
    | cons c rest ih =>
      intro acc hmem
      rw [List.foldl_cons]
      by_cases hcw : w ∈ rest
      · cases hc : fails c
        · rw [if_neg (by simp [hc])]; exact ih _ hcw
        · rw [if_pos (by simp [hc])]; exact ih _ hcw
      · have hwc : w = c := by
          rcases List.mem_cons.mp hmem with rfl | h'
          · rfl
          · exact absurd h' hcw
        subst hwc
        rw [if_pos (by simp [hf])]
        intro hx
        have h1 := deliverA_fold_snd_subset fails rest w _ hx
        have h2m := List.mem_filter.mp h1
        simp at h2m
  exact main conns ([], conns) hw

theorem deliverB_fold_fst (fails : Nat → Bool) (conns : List Nat) :
    ∀ acc : List Nat,
      conns.foldl (fun acc ws => if fails ws then acc else acc ++ [ws]) acc =
        acc ++ conns.filter (fun w => !fails w) := by
  induction conns with
  | nil => intro acc; simp
  | cons c rest ih =>
    intro acc
    rw [List.foldl_cons]
    cases hc : fails c
    · rw [if_neg (by simp [hc])]
      rw [ih]
      simp [List.filter_cons, hc]
    · rw [if_pos (by simp [hc])]
      rw [ih]
      simp [List.filter_cons, hc]

theorem mem_deliverB_delivered (fails : Nat → Bool) (conns : List Nat)
    (w : Nat) (hw : w ∈ conns) (hf : fails w = false) :
    w ∈ (deliverB fails conns).1 := by
  rw [deliverB]
  simp only
  rw [deliverB_fold_fst]
  simp only [List.nil_append]
  exact List.mem_filter.mpr ⟨hw, by simp [hf]⟩

theorem deliverB_live_unchanged (fails : Nat → Bool) (conns : List Nat) :
    (deliverB fails conns).2 = conns := rfl

theorem hasKey_mset_self {α : Type} (m : List (String × α)) (k : String)
    (v : α) : hasKey (mset m k v) k = true := by
  unfold hasKey
  rw [mget_mset_self]
  rfl

theorem submitVoteAF_rejected_already (putOk : Bool) (now online : Nat)
    (sid : String) (sels : List String) (st : StoreA)
    (h : hasKey (loadVotesA st) sid = true) :
    submitVoteAF putOk now online sid sels st =
      (Except.ok ⟨false, some "Already voted"⟩, st, none) := by
  simp [submitVoteAF, h]

theorem submitVoteAF_rejected_empty (putOk : Bool) (now online : Nat)
    (sid : String) (sels : List String) (st : StoreA)
    (h : hasKey (loadVotesA st) sid = false)
    (h2 : (sels.filter (fun s => AI_TOOLS.contains s)).length = 0) :
    submitVoteAF putOk now online sid sels st =
      (Except.ok ⟨false, some "No valid selections"⟩, st, none) := by
  cases putOk
  all_goals
    simp [submitVoteAF, h]
    simpa using h2

theorem submitVoteAF_accepted (now online : Nat) (sid : String)
    (sels : List String) (st : StoreA)
    (h : hasKey (loadVotesA st) sid = false)
    (h2 : (sels.filter (fun s => AI_TOOLS.contains s)).length ≠ 0) :
    submitVoteAF true now online sid sels st =
      (Except.ok ⟨true, none⟩,
       ⟨some (mset (loadVotesA st) sid
          ⟨sid, sels.filter (fun s => AI_TOOLS.contains s), now⟩),
        st.startTime⟩,
       some (broadcastMsgA now online
        ⟨some (mset (loadVotesA st) sid
          ⟨sid, sels.filter (fun s => AI_TOOLS.contains s), now⟩),
         st.startTime⟩)) := by
  simp [submitVoteAF, h]
  simpa using h2

theorem submitVoteAF_put_failed (now online : Nat) (sid : String)
    (sels : List String) (st : StoreA)
    (h : hasKey (loadVotesA st) sid = false)
    (h2 : (sels.filter (fun s => AI_TOOLS.contains s)).length ≠ 0) :
    submitVoteAF false now online sid sels st =
      (Except.error (), st, none) := by
  simp [submitVoteAF, h]
  simpa using h2

/-! ### Claim theorems -/

/-- C10: duplicate options within one request are not deduplicated.  The
single accepted vote `("s1", ["Other", "Other"])` is stored with both
occurrences, and the tally of "Other" — both the incrementally stored one
and the one recomputed on read — rises by 2 for that single vote, even
though only one stored vote's selections contain "Other". -/
theorem duplicate_selections_not_deduplicated :
    (submitVoteB 5 0 "s1" ["Other", "Other"] initStoreB).1.success = true ∧
    mget (loadVotes (runB [Op.vote 5 "s1" ["Other", "Other"]])) "s1" =
      some ⟨"s1", ["Other", "Other"], 5⟩ ∧
    mget (loadTallies (runB [Op.vote 5 "s1" ["Other", "Other"]])) "Other" =
      some 2 ∧
    mget (getStateA 0 (runA [Op.vote 5 "s1" ["Other", "Other"]])).tallies
      "Other" = some 2 ∧
    votesContaining (loadVotes (runB [Op.vote 5 "s1" ["Other", "Other"]]))
      "Other" = 1 := by
  decide

/-- C1 counterexample: in the reachable state left by the single accepted
vote `("s1", ["Other", "Other"])`, the tally of the catalog option "Other"
is 2 while the number of accepted votes whose selections include "Other"
is 1, so the tally does not equal that vote count, in either variant. -/
theorem tally_not_vote_count_cex :
    mget (getStateB 0 (runB [Op.vote 7 "s1" ["Other", "Other"]])).tallies
      "Other" ≠
      some (votesContaining
        (loadVotes (runB [Op.vote 7 "s1" ["Other", "Other"]])) "Other") ∧
    mget (getStateA 0 (runA [Op.vote 7 "s1" ["Other", "Other"]])).tallies
      "Other" ≠
      some (votesContaining
        (loadVotesA (runA [Op.vote 7 "s1" ["Other", "Other"]])) "Other") := by
  decide

/-- C1 (amended): for every state reachable by submitVote and resetSurvey
operations, in both variants, the tally of each catalog option equals the
total number of occurrences of that option across the selections of the
accepted votes (which is the number of accepted votes containing it
whenever no single vote repeats an option), and `totalVotes` equals the
number of distinct accepted session ids. -/
theorem tally_consistency_amended (ops : List Op) (now : Nat) (o : String)
    (ho : o ∈ AI_TOOLS) :
    mget (getStateB now (runB ops)).tallies o =
      some (occurrencesOf (loadVotes (runB ops)) o) ∧
    mget (getStateA now (runA ops)).tallies o =
      some (occurrencesOf (loadVotesA (runA ops)) o) ∧
    (getStateB now (runB ops)).totalVotes =
      ((loadVotes (runB ops)).map Prod.fst).dedup.length ∧
    (getStateA now (runA ops)).totalVotes =
      ((loadVotesA (runA ops)).map Prod.fst).dedup.length := by
  obtain ⟨ht, htot, hnd⟩ := invB_run ops
  have hv := votesAB_run ops
  refine ⟨?_, ?_, ?_, ?_⟩
  · show mget (loadTallies (runB ops)) o = _
    rw [ht]
    exact mget_talliesOfVotes _ o ho
  · show mget (talliesOfVotes (loadVotesA (runA ops))) o = _
    exact mget_talliesOfVotes _ o ho
  · show loadTotal (runB ops) = _
    rw [htot, List.dedup_eq_self.mpr hnd]
    simp
  · show (loadVotesA (runA ops)).length = _
    rw [hv, List.dedup_eq_self.mpr hnd]
    simp

theorem tally_consistency_amended_witness :
    mget (getStateB 0 (runB [Op.vote 5 "s1" ["Other"]])).tallies "Other" =
      some (occurrencesOf (loadVotes (runB [Op.vote 5 "s1" ["Other"]]))
        "Other") ∧
    mget (getStateA 0 (runA [Op.vote 5 "s1" ["Other"]])).tallies "Other" =
      some (occurrencesOf (loadVotesA (runA [Op.vote 5 "s1" ["Other"]]))
        "Other") ∧
    (getStateB 0 (runB [Op.vote 5 "s1" ["Other"]])).totalVotes =
      ((loadVotes (runB [Op.vote 5 "s1" ["Other"]])).map
        Prod.fst).dedup.length ∧
    (getStateA 0 (runA [Op.vote 5 "s1" ["Other"]])).totalVotes =
      ((loadVotesA (runA [Op.vote 5 "s1" ["Other"]])).map
        Prod.fst).dedup.length :=
  tally_consistency_amended [Op.vote 5 "s1" ["Other"]] 0 "Other" (by decide)

/-- C2: idempotent voting.  If `submitVote(s, a)` was accepted, a later
`submitVote(s, b)` — in either variant, for any `b` — is rejected as
already-voted, the store is returned unchanged with no broadcast, the
stored vote for `s` still carries the filtered selections of `a`, and the
incrementally stored tallies still reflect only `a`. -/
theorem idempotent_voting (now now' online online' : Nat) (s : String)
    (a b : List String) (st : StoreB) (stA : StoreA)
    (hB : (submitVoteB now online s a st).1.success = true)
    (hA : (submitVoteA now online s a stA).1.success = true) :
    submitVoteB now' online' s b (submitVoteB now online s a st).2.1 =
      (⟨false, "You have already voted"⟩,
        (submitVoteB now online s a st).2.1, none) ∧
    mget (loadVotes (submitVoteB now online s a st).2.1) s =
      some ⟨s, a.filter (fun x => AI_TOOLS.contains x), now⟩ ∧
    loadTallies (submitVoteB now online s a st).2.1 =
      bumpAll (loadTallies st) (a.filter (fun x => AI_TOOLS.contains x)) ∧
    submitVoteA now' online' s b (submitVoteA now online s a stA).2.1 =
      (⟨false, some "Already voted"⟩,
        (submitVoteA now online s a stA).2.1, none) ∧
    mget (loadVotesA (submitVoteA now online s a stA).2.1) s =
      some ⟨s, a.filter (fun x => AI_TOOLS.contains x), now⟩ := by
  cases hk : hasKey (loadVotes st) s with
  | true =>
    rw [submitVoteB_rejected_already now online s a st hk] at hB
    simp at hB
  | false =>
    cases hkA : hasKey (loadVotesA stA) s with
    | true =>
      rw [submitVoteA_rejected_already now online s a stA hkA] at hA
      simp at hA
    | false =>
      by_cases h2 : (a.filter (fun x => AI_TOOLS.contains x)).length = 0
      · rw [submitVoteB_rejected_empty now online s a st hk h2] at hB
        simp at hB
      · rw [submitVoteB_accepted now online s a st hk h2,
            submitVoteA_accepted now online s a stA hkA h2]
        refine ⟨?_, mget_mset_self _ _ _, rfl, ?_, mget_mset_self _ _ _⟩
        · exact submitVoteB_rejected_already _ _ _ _ _
            (hasKey_mset_self _ _ _)
        · exact submitVoteA_rejected_already _ _ _ _ _
            (hasKey_mset_self _ _ _)

theorem idempotent_voting_witness :
    submitVoteB 2 0 "s" ["Cursor"]
        (submitVoteB 1 0 "s" ["Other"] initStoreB).2.1 =
      (⟨false, "You have already voted"⟩,
        (submitVoteB 1 0 "s" ["Other"] initStoreB).2.1, none) ∧
    mget (loadVotes (submitVoteB 1 0 "s" ["Other"] initStoreB).2.1) "s" =
      some ⟨"s", ["Other"].filter (fun x => AI_TOOLS.contains x), 1⟩ ∧
    loadTallies (submitVoteB 1 0 "s" ["Other"] initStoreB).2.1 =
      bumpAll (loadTallies initStoreB)
        (["Other"].filter (fun x => AI_TOOLS.contains x)) ∧
    submitVoteA 2 0 "s" ["Cursor"]
        (submitVoteA 1 0 "s" ["Other"] initStoreA).2.1 =
      (⟨false, some "Already voted"⟩,
        (submitVoteA 1 0 "s" ["Other"] initStoreA).2.1, none) ∧
    mget (loadVotesA (submitVoteA 1 0 "s" ["Other"] initStoreA).2.1) "s" =
      some ⟨"s", ["Other"].filter (fun x => AI_TOOLS.contains x), 1⟩ :=
  idempotent_voting 1 2 0 0 "s" ["Other"] ["Cursor"] initStoreB initStoreA
    (by decide) (by decide)

/-- C3: selection filtering.  For a session that has not voted, the
requested selections are filtered to the catalog: if nothing survives the
filter the vote is rejected with the no-valid-selections error and the
store is returned unchanged with no broadcast; otherwise the vote is
accepted and the stored vote carries exactly the filtered selections
(unknown options are silently dropped), in both variants. -/
theorem selection_filtering (now online : Nat) (sid : String)
    (sels : List String) (st : StoreB) (stA : StoreA)
    (hB : hasKey (loadVotes st) sid = false)
    (hA : hasKey (loadVotesA stA) sid = false) :
    (sels.filter (fun s => AI_TOOLS.contains s) = [] →
      submitVoteB now online sid sels st =
        (⟨false, "Please select at least one option"⟩, st, none) ∧
      submitVoteA now online sid sels stA =
        (⟨false, some "No valid selections"⟩, stA, none)) ∧
    (sels.filter (fun s => AI_TOOLS.contains s) ≠ [] →
      (submitVoteB now online sid sels st).1 =
        ⟨true, "Vote recorded successfully"⟩ ∧
      mget (loadVotes (submitVoteB now online sid sels st).2.1) sid =
        some ⟨sid, sels.filter (fun s => AI_TOOLS.contains s), now⟩ ∧
      (submitVoteA now online sid sels stA).1 = ⟨true, none⟩ ∧
      mget (loadVotesA (submitVoteA now online sid sels stA).2.1) sid =
        some ⟨sid, sels.filter (fun s => AI_TOOLS.contains s), now⟩) := by
  constructor
  · intro he
    have h2 : (sels.filter (fun s => AI_TOOLS.contains s)).length = 0 := by
      rw [he]
      rfl
    exact ⟨submitVoteB_rejected_empty now online sid sels st hB h2,
           submitVoteA_rejected_empty now online sid sels stA hA h2⟩
  · intro hne
    have h2 : (sels.filter (fun s => AI_TOOLS.contains s)).length ≠ 0 :=
      fun h0 => hne (List.length_eq_zero.mp h0)
    rw [submitVoteB_accepted now online sid sels st hB h2,
        submitVoteA_accepted now online sid sels stA hA h2]
    exact ⟨rfl, mget_mset_self _ _ _, rfl, mget_mset_self _ _ _⟩

theorem selection_filtering_witness :
    (submitVoteB 0 0 "s" ["bogus"] initStoreB =
      (⟨false, "Please select at least one option"⟩, initStoreB, none) ∧
     submitVoteA 0 0 "s" ["bogus"] initStoreA =
      (⟨false, some "No valid selections"⟩, initStoreA, none)) ∧
    ((submitVoteB 0 0 "s" ["Other", "bogus"] initStoreB).1 =
      ⟨true, "Vote recorded successfully"⟩ ∧
     mget (loadVotes (submitVoteB 0 0 "s" ["Other", "bogus"]
        initStoreB).2.1) "s" =
      some ⟨"s", ["Other", "bogus"].filter (fun s => AI_TOOLS.contains s),
        0⟩) :=
  ⟨(selection_filtering 0 0 "s" ["bogus"] initStoreB initStoreA
      (by decide) (by decide)).1 (by decide),
   by
     have h := (selection_filtering 0 0 "s" ["Other", "bogus"] initStoreB
       initStoreA (by decide) (by decide)).2 (by decide)
     exact ⟨h.1, h.2.1⟩⟩

/-- C4: reset completeness and re-enabling.  After `resetSurvey` the tally
map read back is the zeroed full catalog, `totalVotes` is 0, and any
session id — in particular one that had voted before the reset — can
submit again with at least one catalog option and is accepted, in both
variants. -/
theorem reset_completeness (now now' online online' : Nat) (st : StoreB)
    (stA : StoreA) (s : String) (sels : List String)
    (hsel : sels.filter (fun x => AI_TOOLS.contains x) ≠ []) :
    (getStateB now' (resetSurveyB now online st).1).tallies =
      freshTallies ∧
    (getStateB now' (resetSurveyB now online st).1).totalVotes = 0 ∧
    (submitVoteB now' online' s sels
      (resetSurveyB now online st).1).1.success = true ∧
    (getStateA now' (resetSurveyA now online stA).1).tallies =
      freshTallies ∧
    (getStateA now' (resetSurveyA now online stA).1).totalVotes = 0 ∧
    (submitVoteA now' online' s sels
      (resetSurveyA now online stA).1).1.success = true := by
  have h2 : (sels.filter (fun x => AI_TOOLS.contains x)).length ≠ 0 :=
    fun h0 => hsel (List.length_eq_zero.mp h0)
  have hkB : hasKey (loadVotes (resetSurveyB now online st).1) s = false :=
    rfl
  have hkA : hasKey (loadVotesA (resetSurveyA now online stA).1) s = false :=
    rfl
  refine ⟨rfl, rfl, ?_, initTallies_eq_freshTallies, rfl, ?_⟩
  · rw [submitVoteB_accepted now' online' s sels
      (resetSurveyB now online st).1 hkB h2]
  · rw [submitVoteA_accepted now' online' s sels
      (resetSurveyA now online stA).1 hkA h2]

theorem reset_completeness_witness :
    (getStateB 3 (resetSurveyB 2 0
      (runB [Op.vote 1 "s" ["Other"]])).1).tallies = freshTallies ∧
    (getStateB 3 (resetSurveyB 2 0
      (runB [Op.vote 1 "s" ["Other"]])).1).totalVotes = 0 ∧
    (submitVoteB 3 0 "s" ["Cursor"] (resetSurveyB 2 0
      (runB [Op.vote 1 "s" ["Other"]])).1).1.success = true ∧
    (getStateA 3 (resetSurveyA 2 0
      (runA [Op.vote 1 "s" ["Other"]])).1).tallies = freshTallies ∧
    (getStateA 3 (resetSurveyA 2 0
      (runA [Op.vote 1 "s" ["Other"]])).1).totalVotes = 0 ∧
    (submitVoteA 3 0 "s" ["Cursor"] (resetSurveyA 2 0
      (runA [Op.vote 1 "s" ["Other"]])).1).1.success = true :=
  reset_completeness 2 3 0 0 (runB [Op.vote 1 "s" ["Other"]])
    (runA [Op.vote 1 "s" ["Other"]]) "s" ["Cursor"] (by decide)

/-- C6 counterexample: in the recompute-on-read variant, the broadcast
triggered by an accepted vote carries the tag `"state"`, not `"update"`,
and the broadcast triggered by reset also carries `"state"`, not
`"reset"` — so the claimed tags do not hold of that implementation. -/
theorem broadcast_types_cex :
    (submitVoteA 0 0 "s" ["Other"] initStoreA).1.success = true ∧
    ((submitVoteA 0 0 "s" ["Other"] initStoreA).2.2).map Msg.type =
      some "state" ∧
    some "state" ≠ some "update" ∧
    (resetSurveyA 0 0 initStoreA).2.type = "state" ∧
    "state" ≠ "reset" := by
  decide

/-- C6 (amended): the incremental variant broadcasts tag `"update"` on an
accepted vote and the distinct tag `"reset"` on reset; the recompute
variant instead broadcasts the fixed tag `"state"` for both events. -/
theorem broadcast_types_amended (now online : Nat) (sid : String)
    (sels : List String) (st : StoreB) (stA : StoreA)
    (hB : (submitVoteB now online sid sels st).1.success = true)
    (hA : (submitVoteA now online sid sels stA).1.success = true) :
    ((submitVoteB now online sid sels st).2.2).map Msg.type =
      some "update" ∧
    (resetSurveyB now online st).2.type = "reset" ∧
    "update" ≠ "reset" ∧
    ((submitVoteA now online sid sels stA).2.2).map Msg.type =
      some "state" ∧
    (resetSurveyA now online stA).2.type = "state" := by
  cases hk : hasKey (loadVotes st) sid with
  | true =>
    rw [submitVoteB_rejected_already now online sid sels st hk] at hB
    simp at hB
  | false =>
    cases hkA : hasKey (loadVotesA stA) sid with
    | true =>
      rw [submitVoteA_rejected_already now online sid sels stA hkA] at hA
      simp at hA
    | false =>
      by_cases h2 : (sels.filter (fun s => AI_TOOLS.contains s)).length = 0
      · rw [submitVoteB_rejected_empty now online sid sels st hk h2] at hB
        simp at hB
      · rw [submitVoteB_accepted now online sid sels st hk h2,
            submitVoteA_accepted now online sid sels stA hkA h2]
        exact ⟨rfl, rfl, by decide, rfl, rfl⟩

theorem broadcast_types_amended_witness :
    ((submitVoteB 0 0 "s" ["Other"] initStoreB).2.2).map Msg.type =
      some "update" ∧
    (resetSurveyB 0 0 initStoreB).2.type = "reset" ∧
    "update" ≠ "reset" ∧
    ((submitVoteA 0 0 "s" ["Other"] initStoreA).2.2).map Msg.type =
      some "state" ∧
    (resetSurveyA 0 0 initStoreA).2.type = "state" :=
  broadcast_types_amended 0 0 "s" ["Other"] initStoreB initStoreA
    (by decide) (by decide)

/-- C7 counterexample: in the incremental variant a subscriber whose send
throws is NOT removed from the live set — the catch block only logs, so
after the fan-out the failing subscriber 0 is still a member of the
unchanged live set. -/
theorem broadcast_isolation_cex :
    (fun n => n == 0) 0 = true ∧
    (deliverB (fun n => n == 0) [0, 1]).2 = [0, 1] ∧
    (0 : Nat) ∈ (deliverB (fun n => n == 0) [0, 1]).2 := by
  decide

/-- C7 (amended): during a fan-out, a send failure to one subscriber never
prevents delivery to any other connected subscriber whose send does not
fail, and the triggering `submitVote` still returns success; the
recompute variant additionally removes the failing subscriber from the
live set, while the incremental variant leaves the live set unchanged. -/
theorem broadcast_isolation_amended (fails : Nat → Bool) (conns : List Nat)
    (w : Nat) (now online : Nat) (sid : String) (sels : List String)
    (st : StoreB) (hw : w ∈ conns)
    (hsid : hasKey (loadVotes st) sid = false)
    (hsel : sels.filter (fun s => AI_TOOLS.contains s) ≠ []) :
    (fails w = false →
      w ∈ (deliverA fails conns).1 ∧ w ∈ (deliverB fails conns).1) ∧
    (fails w = true →
      w ∉ (deliverA fails conns).2 ∧ w ∈ (deliverB fails conns).2) ∧
    (submitVoteB now online sid sels st).1.success = true := by
  have h2 : (sels.filter (fun s => AI_TOOLS.contains s)).length ≠ 0 :=
    fun h0 => hsel (List.length_eq_zero.mp h0)
  refine ⟨fun hf => ⟨mem_deliverA_delivered fails conns w hw hf,
                     mem_deliverB_delivered fails conns w hw hf⟩,
          fun hf => ⟨not_mem_deliverA_live fails conns w hw hf, ?_⟩, ?_⟩
  · rw [deliverB_live_unchanged]
    exact hw
  · rw [submitVoteB_accepted now online sid sels st hsid h2]

theorem broadcast_isolation_amended_witness :
    ((1 : Nat) ∈ (deliverA (fun n => n == 0) [0, 1]).1 ∧
     (1 : Nat) ∈ (deliverB (fun n => n == 0) [0, 1]).1) ∧
    ((0 : Nat) ∉ (deliverA (fun n => n == 0) [0, 1]).2 ∧
     (0 : Nat) ∈ (deliverB (fun n => n == 0) [0, 1]).2) ∧
    (submitVoteB 0 5 "s" ["Other"] initStoreB).1.success = true :=
  ⟨(broadcast_isolation_amended (fun n => n == 0) [0, 1] 1 0 5 "s"
      ["Other"] initStoreB (by decide) (by decide) (by decide)).1
      (by decide),
   (broadcast_isolation_amended (fun n => n == 0) [0, 1] 0 0 5 "s"
      ["Other"] initStoreB (by decide) (by decide) (by decide)).2.1
      (by decide),
   (broadcast_isolation_amended (fun n => n == 0) [0, 1] 1 0 5 "s"
      ["Other"] initStoreB (by decide) (by decide) (by decide)).2.2⟩

/-- C8: refinement between the two implementations.  After every sequence
of submitVote and reset operations the recompute-on-read variant and the
incremental variant produce equal tally maps and equal totalVotes. -/
theorem refinement_recompute_incremental (ops : List Op) (now : Nat) :
    (getStateA now (runA ops)).tallies =
      (getStateB now (runB ops)).tallies ∧
    (getStateA now (runA ops)).totalVotes =
      (getStateB now (runB ops)).totalVotes := by
  obtain ⟨ht, htot, _⟩ := invB_run ops
  have hv := votesAB_run ops
  constructor
  · show talliesOfVotes (loadVotesA (runA ops)) = loadTallies (runB ops)
    rw [hv, ht]
  · show (loadVotesA (runA ops)).length = loadTotal (runB ops)
    rw [hv, htot]

/-- C9: full-catalog state loading.  In every reachable state of either
variant the loaded tally map has an entry for every catalog option, and
when nothing has ever been persisted the loaded state has every catalog
option's tally at 0 and `totalVotes = 0`. -/
theorem full_catalog_loading (ops : List Op) (now : Nat) (o : String)
    (ho : o ∈ AI_TOOLS) :
    hasKey (getStateB now (runB ops)).tallies o = true ∧
    hasKey (getStateA now (runA ops)).tallies o = true ∧
    mget (getStateB now initStoreB).tallies o = some 0 ∧
    (getStateB now initStoreB).totalVotes = 0 ∧
    mget (getStateA now initStoreA).tallies o = some 0 ∧
    (getStateA now initStoreA).totalVotes = 0 := by
  obtain ⟨ht, _, _⟩ := invB_run ops
  refine ⟨?_, ?_, ?_, rfl, ?_, rfl⟩
  · show hasKey (loadTallies (runB ops)) o = true
    rw [ht]
    unfold hasKey
    rw [mget_talliesOfVotes _ o ho]
    rfl
  · show hasKey (talliesOfVotes (loadVotesA (runA ops))) o = true
    unfold hasKey
    rw [mget_talliesOfVotes _ o ho]
    rfl
  · show mget freshTallies o = some 0
    exact mget_freshTallies o ho
  · show mget (talliesOfVotes []) o = some 0
    rw [talliesOfVotes_nil, initTallies_eq_freshTallies]
    exact mget_freshTallies o ho

theorem full_catalog_loading_witness :
    hasKey (getStateB 0 (runB [Op.vote 1 "s" ["Cursor"]])).tallies
      "None" = true ∧
    hasKey (getStateA 0 (runA [Op.vote 1 "s" ["Cursor"]])).tallies
      "None" = true ∧
    mget (getStateB 0 initStoreB).tallies "None" = some 0 ∧
    (getStateB 0 initStoreB).totalVotes = 0 ∧
    mget (getStateA 0 initStoreA).tallies "None" = some 0 ∧
    (getStateA 0 initStoreA).totalVotes = 0 :=
  full_catalog_loading [Op.vote 1 "s" ["Cursor"]] 0 "None" (by decide)

theorem bool_false_of_not_true {b : Bool} (h : ¬ b = true) : b = false := by
  cases b
  · rfl
  · exact absurd rfl h

theorem submitVoteBF_rejected_already (p1 p2 p3 : Bool) (now online : Nat)
    (sid : String) (sels : List String) (st : StoreB)
    (h : hasKey (loadVotes st) sid = true) :
    submitVoteBF p1 p2 p3 now online sid sels st =
      (Except.ok ⟨false, "You have already voted"⟩, st, none) := by
  simp [submitVoteBF, getStateB, h]

theorem submitVoteBF_rejected_empty (p1 p2 p3 : Bool) (now online : Nat)
    (sid : String) (sels : List String) (st : StoreB)
    (h : hasKey (loadVotes st) sid = false)
    (h2 : (sels.filter (fun s => AI_TOOLS.contains s)).length = 0) :
    submitVoteBF p1 p2 p3 now online sid sels st =
      (Except.ok ⟨false, "Please select at least one option"⟩, st, none) := by
  cases p1 <;> cases p2 <;> cases p3
  all_goals
    simp [submitVoteBF, getStateB, h]
    simpa using h2

theorem submitVoteBF_votes_put_failed (p2 p3 : Bool) (now online : Nat)
    (sid : String) (sels : List String) (st : StoreB)
    (h : hasKey (loadVotes st) sid = false)
    (h2 : (sels.filter (fun s => AI_TOOLS.contains s)).length ≠ 0) :
    submitVoteBF false p2 p3 now online sid sels st =
      (Except.error (), st, none) := by
  simp [submitVoteBF, getStateB, h]
  simpa using h2

theorem submitVoteBF_tallies_put_failed (p3 : Bool) (now online : Nat)
    (sid : String) (sels : List String) (st : StoreB)
    (h : hasKey (loadVotes st) sid = false)
    (h2 : (sels.filter (fun s => AI_TOOLS.contains s)).length ≠ 0) :
    submitVoteBF true false p3 now online sid sels st =
      (Except.error (),
       ⟨some (mset (loadVotes st) sid
          ⟨sid, sels.filter (fun s => AI_TOOLS.contains s), now⟩),
        st.tallies, st.totalVotes, st.startTime⟩, none) := by
  simp [submitVoteBF, getStateB, h]
  simpa using h2

theorem submitVoteBF_total_put_failed (now online : Nat) (sid : String)
    (sels : List String) (st : StoreB)
    (h : hasKey (loadVotes st) sid = false)
    (h2 : (sels.filter (fun s => AI_TOOLS.contains s)).length ≠ 0) :
    submitVoteBF true true false now online sid sels st =
      (Except.error (),
       ⟨some (mset (loadVotes st) sid
          ⟨sid, sels.filter (fun s => AI_TOOLS.contains s), now⟩),
        some (bumpAll (loadTallies st)
          (sels.filter (fun s => AI_TOOLS.contains s))),
        st.totalVotes, st.startTime⟩, none) := by
  simp [submitVoteBF, getStateB, h]
  simpa using h2

theorem submitVoteBF_accepted (now online : Nat) (sid : String)
    (sels : List String) (st : StoreB)
    (h : hasKey (loadVotes st) sid = false)
    (h2 : (sels.filter (fun s => AI_TOOLS.contains s)).length ≠ 0) :
    submitVoteBF true true true now online sid sels st =
      (Except.ok ⟨true, "Vote recorded successfully"⟩,
       ⟨some (mset (loadVotes st) sid
          ⟨sid, sels.filter (fun s => AI_TOOLS.contains s), now⟩),
        some (bumpAll (loadTallies st)
          (sels.filter (fun s => AI_TOOLS.contains s))),
        some (loadTotal st + 1), st.startTime⟩,
       some ⟨"update",
         bumpAll (loadTallies st) (sels.filter (fun s => AI_TOOLS.contains s)),
         loadTotal st + 1, online⟩) := by
  simp [submitVoteBF, getStateB, h]
  simpa using h2

/-- C5 counterexample: in the incremental variant, whose `submitVote`
performs three sequential durable puts, a failure of the second put
(`tallies`) after the first (`votes`) succeeded surfaces an error rather
than an accepted result — but it does NOT leave the survey state
unchanged: the vote is already recorded in the durable `votes` map while
`tallies` and `totalVotes` are not updated, so the state a later load
observes has a tally of 0 for "Other" despite one stored accepted vote
containing it. -/
theorem storage_failure_partial_update_cex :
    (submitVoteBF true false true 1 0 "s" ["Other"] initStoreB).1 =
      Except.error () ∧
    (submitVoteBF true false true 1 0 "s" ["Other"] initStoreB).2.1 ≠
      initStoreB ∧
    mget (loadVotes
      (submitVoteBF true false true 1 0 "s" ["Other"] initStoreB).2.1)
      "s" = some ⟨"s", ["Other"], 1⟩ ∧
    mget (loadTallies
      (submitVoteBF true false true 1 0 "s" ["Other"] initStoreB).2.1)
      "Other" = some 0 ∧
    votesContaining (loadVotes
      (submitVoteBF true false true 1 0 "s" ["Other"] initStoreB).2.1)
      "Other" = 1 :=
  ⟨rfl, by decide, rfl, rfl, rfl⟩

/-- C5 (amended): in both variants a Tally Store failure during
`submitVote` is surfaced to the caller instead of an accepted result and
no broadcast is produced, and whenever the accepted result is returned
every put has already completed, with the vote durably recorded (and, in
the incremental variant, the tallies and total durably updated) before
the response is produced.  The recompute-on-read variant, whose
`submitVote` performs a single put, additionally leaves the durable store
entirely unchanged when that put fails; in the incremental variant only a
failure of the first of its three sequential puts leaves the store
unchanged — a later put's failure can leave the store partially updated,
as the counterexample shows. -/
theorem storage_failure_amended (putOk p1 p2 p3 : Bool) (now online : Nat)
    (sid : String) (sels : List String) (stA : StoreA) (stB : StoreB) :
    (putOk = false →
      (submitVoteAF putOk now online sid sels stA).2.1 = stA ∧
      (submitVoteAF putOk now online sid sels stA).2.2 = none ∧
      (submitVoteAF putOk now online sid sels stA).1 ≠
        Except.ok ⟨true, none⟩) ∧
    (putOk = false → hasKey (loadVotesA stA) sid = false →
      sels.filter (fun s => AI_TOOLS.contains s) ≠ [] →
      (submitVoteAF putOk now online sid sels stA).1 = Except.error ()) ∧
    ((submitVoteAF putOk now online sid sels stA).1 =
        Except.ok ⟨true, none⟩ →
      mget (loadVotesA (submitVoteAF putOk now online sid sels stA).2.1)
        sid =
        some ⟨sid, sels.filter (fun s => AI_TOOLS.contains s), now⟩) ∧
    ((p1 && p2 && p3) = false →
      acceptedB (submitVoteBF p1 p2 p3 now online sid sels stB).1 =
        false ∧
      (submitVoteBF p1 p2 p3 now online sid sels stB).2.2 = none) ∧
    (p1 = false →
      (submitVoteBF p1 p2 p3 now online sid sels stB).2.1 = stB) ∧
    (p1 = false → hasKey (loadVotes stB) sid = false →
      sels.filter (fun s => AI_TOOLS.contains s) ≠ [] →
      (submitVoteBF p1 p2 p3 now online sid sels stB).1 =
        Except.error ()) ∧
    (acceptedB (submitVoteBF p1 p2 p3 now online sid sels stB).1 = true →
      (p1 && p2 && p3) = true ∧
      mget (loadVotes (submitVoteBF p1 p2 p3 now online sid sels
        stB).2.1) sid =
        some ⟨sid, sels.filter (fun s => AI_TOOLS.contains s), now⟩ ∧
      loadTallies (submitVoteBF p1 p2 p3 now online sid sels stB).2.1 =
        bumpAll (loadTallies stB)
          (sels.filter (fun s => AI_TOOLS.contains s)) ∧
      loadTotal (submitVoteBF p1 p2 p3 now online sid sels stB).2.1 =
        loadTotal stB + 1) := by
  refine ⟨?_, ?_, ?_, ?_, ?_, ?_, ?_⟩
  · intro hput
    subst hput
    by_cases hk : hasKey (loadVotesA stA) sid = true
    · rw [submitVoteAF_rejected_already false now online sid sels stA hk]
      exact ⟨rfl, rfl, by simp⟩
    · have hk' := bool_false_of_not_true hk
      by_cases h2 : (sels.filter (fun s => AI_TOOLS.contains s)).length = 0
      · rw [submitVoteAF_rejected_empty false now online sid sels stA
          hk' h2]
        exact ⟨rfl, rfl, by simp⟩
      · rw [submitVoteAF_put_failed now online sid sels stA hk' h2]
        exact ⟨rfl, rfl, by simp⟩
  · intro hput hk hsel
    subst hput
    rw [submitVoteAF_put_failed now online sid sels stA hk
      (fun h0 => hsel (List.length_eq_zero.mp h0))]
  · intro hacc
    by_cases hk : hasKey (loadVotesA stA) sid = true
    · rw [submitVoteAF_rejected_already putOk now online sid sels stA
        hk] at hacc
      simp at hacc
    · have hk' := bool_false_of_not_true hk
      by_cases h2 : (sels.filter (fun s => AI_TOOLS.contains s)).length = 0
      · rw [submitVoteAF_rejected_empty putOk now online sid sels stA
          hk' h2] at hacc
        simp at hacc
      · cases putOk with
        | false =>
          rw [submitVoteAF_put_failed now online sid sels stA hk' h2]
            at hacc
          simp at hacc
        | true =>
          rw [submitVoteAF_accepted now online sid sels stA hk' h2]
          exact mget_mset_self _ _ _
  · intro hflag
    by_cases hk : hasKey (loadVotes stB) sid = true
    · rw [submitVoteBF_rejected_already p1 p2 p3 now online sid sels
        stB hk]
      exact ⟨rfl, rfl⟩
    · have hk' := bool_false_of_not_true hk
      by_cases h2 : (sels.filter (fun s => AI_TOOLS.contains s)).length = 0
      · rw [submitVoteBF_rejected_empty p1 p2 p3 now online sid sels stB
          hk' h2]
        exact ⟨rfl, rfl⟩
      · cases p1 with
        | false =>
          rw [submitVoteBF_votes_put_failed p2 p3 now online sid sels
            stB hk' h2]
          exact ⟨rfl, rfl⟩
        | true =>
          cases p2 with
          | false =>
            rw [submitVoteBF_tallies_put_failed p3 now online sid sels
              stB hk' h2]
            exact ⟨rfl, rfl⟩
          | true =>
            cases p3 with
            | false =>
              rw [submitVoteBF_total_put_failed now online sid sels stB
                hk' h2]
              exact ⟨rfl, rfl⟩
            | true => simp at hflag
  · intro hp1
    subst hp1
    by_cases hk : hasKey (loadVotes stB) sid = true
    · rw [submitVoteBF_rejected_already false p2 p3 now online sid sels
        stB hk]
    · have hk' := bool_false_of_not_true hk
      by_cases h2 : (sels.filter (fun s => AI_TOOLS.contains s)).length = 0
      · rw [submitVoteBF_rejected_empty false p2 p3 now online sid sels
          stB hk' h2]
      · rw [submitVoteBF_votes_put_failed p2 p3 now online sid sels stB
          hk' h2]
  · intro hp1 hk hsel
    subst hp1
    rw [submitVoteBF_votes_put_failed p2 p3 now online sid sels stB hk
      (fun h0 => hsel (List.length_eq_zero.mp h0))]
  · intro hacc
    by_cases hk : hasKey (loadVotes stB) sid = true
    · rw [submitVoteBF_rejected_already p1 p2 p3 now online sid sels
        stB hk] at hacc
      simp [acceptedB] at hacc
    · have hk' := bool_false_of_not_true hk
      by_cases h2 : (sels.filter (fun s => AI_TOOLS.contains s)).length = 0
      · rw [submitVoteBF_rejected_empty p1 p2 p3 now online sid sels stB
          hk' h2] at hacc
        simp [acceptedB] at hacc
      · cases p1 with
        | false =>
          rw [submitVoteBF_votes_put_failed p2 p3 now online sid sels
            stB hk' h2] at hacc
          simp [acceptedB] at hacc
        | true =>
          cases p2 with
          | false =>
            rw [submitVoteBF_tallies_put_failed p3 now online sid sels
              stB hk' h2] at hacc
            simp [acceptedB] at hacc
          | true =>
            cases p3 with
            | false =>
              rw [submitVoteBF_total_put_failed now online sid sels stB
                hk' h2] at hacc
              simp [acceptedB] at hacc
            | true =>
              rw [submitVoteBF_accepted now online sid sels stB hk' h2]
              exact ⟨rfl, mget_mset_self _ _ _, rfl, rfl⟩

theorem storage_failure_amended_witness :
    ((submitVoteAF false 1 0 "s" ["Other"] initStoreA).2.1 =
        initStoreA ∧
     (submitVoteAF false 1 0 "s" ["Other"] initStoreA).2.2 = none ∧
     (submitVoteAF false 1 0 "s" ["Other"] initStoreA).1 ≠
        Except.ok ⟨true, none⟩) ∧
    (submitVoteAF false 1 0 "s" ["Other"] initStoreA).1 =
      Except.error () ∧
    mget (loadVotesA
      (submitVoteAF true 1 0 "s" ["Other"] initStoreA).2.1) "s" =
      some ⟨"s", ["Other"].filter (fun s => AI_TOOLS.contains s), 1⟩ ∧
    (acceptedB (submitVoteBF true false true 1 0 "s" ["Other"]
        initStoreB).1 = false ∧
     (submitVoteBF true false true 1 0 "s" ["Other"] initStoreB).2.2 =
        none) ∧
    (submitVoteBF false true true 1 0 "s" ["Other"] initStoreB).2.1 =
      initStoreB ∧
    (submitVoteBF false true true 1 0 "s" ["Other"] initStoreB).1 =
      Except.error () ∧
    ((true && true && true) = true ∧
     mget (loadVotes (submitVoteBF true true true 1 0 "s" ["Other"]
        initStoreB).2.1) "s" =
        some ⟨"s", ["Other"].filter (fun s => AI_TOOLS.contains s), 1⟩ ∧
     loadTallies (submitVoteBF true true true 1 0 "s" ["Other"]
        initStoreB).2.1 =
        bumpAll (loadTallies initStoreB)
          (["Other"].filter (fun s => AI_TOOLS.contains s)) ∧
     loadTotal (submitVoteBF true true true 1 0 "s" ["Other"]
        initStoreB).2.1 = loadTotal initStoreB + 1) :=
  ⟨(storage_failure_amended false false true true 1 0 "s" ["Other"]
      initStoreA initStoreB).1 rfl,
   (storage_failure_amended false false true true 1 0 "s" ["Other"]
      initStoreA initStoreB).2.1 rfl (by decide) (by decide),
   (storage_failure_amended true true true true 1 0 "s" ["Other"]
      initStoreA initStoreB).2.2.1 rfl,
   (storage_failure_amended true true false true 1 0 "s" ["Other"]
      initStoreA initStoreB).2.2.2.1 rfl,
   (storage_failure_amended true false true true 1 0 "s" ["Other"]
      initStoreA initStoreB).2.2.2.2.1 rfl,
   (storage_failure_amended true false true true 1 0 "s" ["Other"]
      initStoreA initStoreB).2.2.2.2.2.1 rfl (by decide) (by decide),
   (storage_failure_amended true true true true 1 0 "s" ["Other"]
      initStoreA initStoreB).2.2.2.2.2.2 rfl⟩
